import Mathlib

/-!
Verification of the octo core engines (cost estimator, model tier
classifier, session health monitor) against their specification.
The Python modules under lib/core are shallowly embedded: pure
computations become Lean functions over ℕ/ℤ/ℚ, file and clock state is
passed explicitly, and fallible code returns Except.
-/

namespace Octo

/-- Association-list lookup keyed by strings, mirroring Python dict.get. -/
def lookupStr {α : Type} (key : String) : List (String × α) → Option α
  | [] => none
  | (k, v) :: rest => if k = key then some v else lookupStr key rest

/-! ## Cost estimator (lib/core/cost_estimator.py) -/

/-- Per-model price sheet: currency units per million tokens. -/
structure PriceSheet where
  input_per_million : ℚ
  output_per_million : ℚ
  cache_read_per_million : ℚ
  cache_write_per_million : ℚ
deriving Repr, DecidableEq

/-- Loaded pricing data: model table plus alias table. -/
structure PricingConfig where
  models : List (String × PriceSheet)
  aliases : List (String × String)

/-- Hardcoded Sonnet sheet used as last-resort fallback in
`_get_model_pricing` (3.00 / 15.00 / 0.30 / 3.75). -/
def fallbackSheet : PriceSheet :=
  { input_per_million := 3
    output_per_million := 15
    cache_read_per_million := 3 / 10
    cache_write_per_million := 15 / 4 }

/-- Built-in pricing returned by `_load_pricing` when the pricing config
file does not exist: a single Sonnet entry and no aliases. -/
def default_pricing : PricingConfig :=
  { models := [("claude-sonnet-4-20250514", fallbackSheet)], aliases := [] }

/-- `_resolve_model`: alias lookup, unknown aliases pass through. -/
def resolve_model (cfg : PricingConfig) (model : String) : String :=
  (lookupStr model cfg.aliases).getD model

/-- `_get_model_pricing`: resolve the alias, look the model up in the
table, otherwise fall back to the table's Sonnet entry, otherwise to the
hardcoded sheet. -/
def get_model_pricing (cfg : PricingConfig) (model : String) : PriceSheet :=
  match lookupStr (resolve_model cfg model) cfg.models with
  | some sheet => sheet
  | none => (lookupStr "claude-sonnet-4-20250514" cfg.models).getD fallbackSheet

/-- Token usage counts extracted from a response's `usage` object; each
field defaults to 0 when absent, and counts are non-negative. -/
structure Usage where
  input_tokens : ℕ
  output_tokens : ℕ
  cache_read_tokens : ℕ
  cache_write_tokens : ℕ
deriving Repr, DecidableEq

/-- Cost breakdown for a single request (dataclass `Cost`). -/
structure Cost where
  input_cost : ℚ
  output_cost : ℚ
  cache_read_cost : ℚ
  cache_write_cost : ℚ
  total : ℚ
deriving Repr, DecidableEq

/-- Constructor mirroring `Cost.__post_init__`: when the supplied total
is 0.0 it is replaced by the sum of the four components. -/
def mkCost (i o cr cw t : ℚ) : Cost :=
  { input_cost := i
    output_cost := o
    cache_read_cost := cr
    cache_write_cost := cw
    total := if t = 0 then i + o + cr + cw else t }

/-- Billable input: `max(0, input_tokens - cache_read)` from `calculate`. -/
def billable_input (u : Usage) : ℤ :=
  max 0 ((u.input_tokens : ℤ) - (u.cache_read_tokens : ℤ))

/-- `CostEstimator.calculate` with the model id and extracted usage made
explicit (the source pulls them out of the response dict with default 0). -/
def calculate (cfg : PricingConfig) (model : String) (u : Usage) : Cost :=
  let pricing := get_model_pricing cfg model
  mkCost
    (((billable_input u : ℤ) : ℚ) / 1000000 * pricing.input_per_million)
    ((u.output_tokens : ℚ) / 1000000 * pricing.output_per_million)
    ((u.cache_read_tokens : ℚ) / 1000000 * pricing.cache_read_per_million)
    ((u.cache_write_tokens : ℚ) / 1000000 * pricing.cache_write_per_million)
    0

/-- The all-zero usage (empty `usage` dict: every `.get(key, 0)` is 0). -/
def zeroUsage : Usage := ⟨0, 0, 0, 0⟩

/-- One line of a daily cost log as `get_daily_summary` sees it after
`json.loads`: a line that raises JSONDecodeError, a line holding valid
JSON that is not an object (on which `.get` raises AttributeError), or a
JSON object whose relevant fields may be absent. -/
inductive LogLine where
  | malformed
  | nonObject
  | record (total : Option ℚ) (input_tokens output_tokens cache_read_tokens : Option ℤ)
deriving Repr, DecidableEq

/-- Daily summary dict produced by `get_daily_summary`. -/
structure DailySummary where
  requests : ℕ
  total_cost : ℚ
  input_tokens : ℤ
  output_tokens : ℤ
  cache_read_tokens : ℤ
deriving Repr, DecidableEq

/-- The all-zero daily summary returned for a missing file. -/
def zeroSummary : DailySummary := ⟨0, 0, 0, 0, 0⟩

/-- Accumulation of one successfully decoded record line
(`record.get(key, 0)` for each field). -/
def accumRecord (acc : DailySummary) (total : Option ℚ)
    (i o cr : Option ℤ) : DailySummary :=
  { requests := acc.requests + 1
    total_cost := acc.total_cost + total.getD 0
    input_tokens := acc.input_tokens + i.getD 0
    output_tokens := acc.output_tokens + o.getD 0
    cache_read_tokens := acc.cache_read_tokens + cr.getD 0 }

/-- The line loop of `get_daily_summary`: `except json.JSONDecodeError:
continue` skips a malformed line, a decoded record is accumulated, and a
line decoding to a non-object raises AttributeError at `record.get`,
which propagates and ends the scan. -/
def summaryLoop : DailySummary → List LogLine → Except String DailySummary
  | acc, [] => .ok acc
  | acc, .malformed :: rest => summaryLoop acc rest
  | _, .nonObject :: _ => .error "AttributeError"
  | acc, .record t i o cr :: rest => summaryLoop (accumRecord acc t i o cr) rest

/-- `CostEstimator.get_daily_summary`, with the day's file contents made
explicit (`none` = the file does not exist). -/
def get_daily_summary (file : Option (List LogLine)) : Except String DailySummary :=
  match file with
  | none => .ok zeroSummary
  | some lines => summaryLoop zeroSummary lines

/-- Savings estimate dict produced by `estimate_savings`. -/
structure Savings where
  base_cost : ℚ
  estimated_without_octo : ℚ
  savings : ℚ
  savings_percent : ℚ
deriving Repr, DecidableEq

/-- `CostEstimator.estimate_savings`, with the base cost (the day's
summary total) made explicit. -/
def estimate_savings (base_cost : ℚ) (with_caching with_tiering : Bool) : Savings :=
  if base_cost = 0 then ⟨0, 0, 0, 0⟩
  else
    let multiplier : ℚ :=
      (if with_caching then 14 / 10 else 1) * (if with_tiering then 13 / 10 else 1)
    let estimated_without := base_cost * multiplier
    let savings := estimated_without - base_cost
    { base_cost := base_cost
      estimated_without_octo := estimated_without
      savings := savings
      savings_percent :=
        if 0 < estimated_without then savings / estimated_without * 100 else 0 }

/-! ## A small regular-expression engine

The tier classifier and the session monitor use Python `re` patterns.
The fragment those patterns need is embedded here: literal characters,
`.` (anything but newline), `\s`, the class `[^\]]`, word boundary `\b`,
start anchor `^`, concatenation, alternation, greedy `*`, greedy `?` and
the bounded greedy repetition `{0,n}`.  The matcher enumerates the match
states in Python's backtracking priority order (left alternative first,
greedy quantifiers longest first), so taking the head of the result list
yields exactly the match Python's engine reports. -/

/-- Regular-expression abstract syntax for the fragment used in octo. -/
inductive RE where
  | eps
  | ch (c : Char)
  | anyc
  | space
  | nonRBracket
  | wb
  | bos
  | seq (a b : RE)
  | alt (a b : RE)
  | star (a : RE)
  | opt (a : RE)
  | repMax (a : RE) (n : Nat)
deriving Repr

/-- Python `\w` over the ASCII inputs at hand: alphanumeric or underscore. -/
def isWordChar (c : Char) : Bool := c.isAlphanum || c == '_'

/-- Python `\s` over ASCII: space, tab, newline, carriage return,
vertical tab, form feed. -/
def isSpaceChar (c : Char) : Bool :=
  c == ' ' || c == '\t' || c == '\n' || c == '\r' || c == '\x0b' || c == '\x0c'

/-- Character comparison, optionally case-insensitive (re.IGNORECASE). -/
def chEq (ci : Bool) (p c : Char) : Bool :=
  if ci then p.toLower == c.toLower else p == c

/-- Structural size of a regex, used to bound the matcher's fuel. -/
def RE.size : RE → Nat
  | .seq a b => a.size + b.size + 1
  | .alt a b => a.size + b.size + 1
  | .star a => a.size + 1
  | .opt a => a.size + 1
  | .repMax a n => a.size + n + 1
  | _ => 1

/-- Anchored matcher.  `reMatch ci fuel r prev s` returns every state
`(previous character, remaining input)` reachable by matching `r` at the
current position, in backtracking priority order.  `prev` is the
character just before the position (`none` at the start of the string),
needed for `\b` and `^`.  Fuel decreases on every recursive call; the
entry points below supply more fuel than any derivation can consume. -/
def reMatch (ci : Bool) : Nat → RE → Option Char → List Char →
    List (Option Char × List Char)
  | 0, _, _, _ => []
  | _ + 1, .eps, prev, s => [(prev, s)]
  | _ + 1, .ch c, _, s =>
    match s with
    | [] => []
    | c' :: rest => if chEq ci c c' then [(some c', rest)] else []
  | _ + 1, .anyc, _, s =>
    match s with
    | [] => []
    | c' :: rest => if c' == '\n' then [] else [(some c', rest)]
  | _ + 1, .space, _, s =>
    match s with
    | [] => []
    | c' :: rest => if isSpaceChar c' then [(some c', rest)] else []
  | _ + 1, .nonRBracket, _, s =>
    match s with
    | [] => []
    | c' :: rest => if c' == ']' then [] else [(some c', rest)]
  | _ + 1, .wb, prev, s =>
    let before := match prev with | none => false | some c => isWordChar c
    let after := match s with | [] => false | c :: _ => isWordChar c
    if before != after then [(prev, s)] else []
  | _ + 1, .bos, prev, s => if prev.isNone then [(prev, s)] else []
  | fuel + 1, .seq a b, prev, s =>
    (reMatch ci fuel a prev s).flatMap fun st => reMatch ci fuel b st.1 st.2
  | fuel + 1, .alt a b, prev, s =>
    reMatch ci fuel a prev s ++ reMatch ci fuel b prev s
  | fuel + 1, .opt a, prev, s =>
    reMatch ci fuel a prev s ++ [(prev, s)]
  | fuel + 1, .star a, prev, s =>
    ((reMatch ci fuel a prev s).flatMap fun st =>
      if st.2.length < s.length then reMatch ci fuel (.star a) st.1 st.2
      else [st]) ++ [(prev, s)]
  | fuel + 1, .repMax a n, prev, s =>
    match n with
    | 0 => [(prev, s)]
    | m + 1 =>
      ((reMatch ci fuel a prev s).flatMap fun st =>
        if st.2.length < s.length then reMatch ci fuel (.repMax a m) st.1 st.2
        else [st]) ++ [(prev, s)]

/-- Fuel bound for running the matcher on input `s`: comfortably larger
than the recursion depth of any derivation (structural depth plus one
quantifier unrolling per consumed character). -/
def reFuel (r : RE) (s : List Char) : Nat :=
  4 * (s.length + RE.size r) + 64

/-- Unanchored search (Python `re.search`): try an anchored match at
each position, left to right, threading the previous character. -/
def searchAux (ci : Bool) (r : RE) : Option Char → List Char → Bool
  | prev, [] => !(reMatch ci (reFuel r []) r prev []).isEmpty
  | prev, c :: rest =>
    !(reMatch ci (reFuel r (c :: rest)) r prev (c :: rest)).isEmpty ||
      searchAux ci r (some c) rest

/-- `re.search(pattern, s) is not None`. -/
def reSearch (ci : Bool) (r : RE) (s : List Char) : Bool :=
  searchAux ci r none s

/-- Counting pass of `re.findall`: repeatedly take the leftmost match
(the head of the priority-ordered match list), resume after its end, and
count; an empty match advances one character.  The extra fuel argument
is at least `s.length + 1`, enough for every step since each one
consumes input. -/
def findCountAux (ci : Bool) (r : RE) : Nat → Option Char → List Char → Nat
  | 0, _, _ => 0
  | fuel + 1, prev, s =>
    match reMatch ci (reFuel r s) r prev s with
    | (p', s') :: _ =>
      if s'.length < s.length then 1 + findCountAux ci r fuel p' s'
      else
        match s with
        | [] => 1
        | c :: rest => 1 + findCountAux ci r fuel (some c) rest
    | [] =>
      match s with
      | [] => 0
      | c :: rest => findCountAux ci r fuel (some c) rest

/-- `len(re.findall(pattern, s))`. -/
def findCount (ci : Bool) (r : RE) (s : List Char) : Nat :=
  findCountAux ci r (s.length + 1) none s

/-- Concatenation of literal characters. -/
def lits (s : String) : RE := s.data.foldr (fun c r => RE.seq (RE.ch c) r) RE.eps

/-- Right-nested alternation `a|b|...` (left alternative tried first). -/
def altList : List RE → RE
  | [] => RE.eps
  | [r] => r
  | r :: rest => RE.alt r (altList rest)

/-- Right-nested concatenation. -/
def seqList : List RE → RE
  | [] => RE.eps
  | [r] => r
  | r :: rest => RE.seq r (seqList rest)

/-- Greedy `+`, expressed as one occurrence followed by a star. -/
def rePlus (r : RE) : RE := RE.seq r (RE.star r)

/-! ## Model tier classifier (lib/core/model_tier.py) -/

/-- Pattern `^(what|which|where|when|who|how many)\b`. -/
def haikuRE1 : RE :=
  seqList [RE.bos,
    altList [lits "what", lits "which", lits "where", lits "when",
      lits "who", lits "how many"], RE.wb]

/-- Pattern `\b(list|show|display|get)\s+(files?|dirs?|folders?)`. -/
def haikuRE2 : RE :=
  seqList [RE.wb,
    altList [lits "list", lits "show", lits "display", lits "get"],
    rePlus RE.space,
    altList [RE.seq (lits "file") (RE.opt (RE.ch 's')),
      RE.seq (lits "dir") (RE.opt (RE.ch 's')),
      RE.seq (lits "folder") (RE.opt (RE.ch 's'))]]

/-- Pattern `^(yes|no|confirm|cancel|ok|done|thanks?|thank you)\b`. -/
def haikuRE3 : RE :=
  seqList [RE.bos,
    altList [lits "yes", lits "no", lits "confirm", lits "cancel",
      lits "ok", lits "done", RE.seq (lits "thank") (RE.opt (RE.ch 's')),
      lits "thank you"], RE.wb]

/-- Pattern `\buse\s+(the\s+)?(grep|glob|read|bash)\s+tool`. -/
def haikuRE4 : RE :=
  seqList [RE.wb, lits "use", rePlus RE.space,
    RE.opt (RE.seq (lits "the") (rePlus RE.space)),
    altList [lits "grep", lits "glob", lits "read", lits "bash"],
    rePlus RE.space, lits "tool"]

/-- Pattern `^(check|verify|validate|test)\s+(if|that|whether)`. -/
def haikuRE5 : RE :=
  seqList [RE.bos,
    altList [lits "check", lits "verify", lits "validate", lits "test"],
    rePlus RE.space, altList [lits "if", lits "that", lits "whether"]]

/-- Pattern `^(go to|open|navigate|cd)\s+`. -/
def haikuRE6 : RE :=
  seqList [RE.bos,
    altList [lits "go to", lits "open", lits "navigate", lits "cd"],
    rePlus RE.space]

/-- Pattern `\b(architect|design|plan)\b.*\b(system|service|infrastructure|api)`. -/
def opusRE1 : RE :=
  seqList [RE.wb, altList [lits "architect", lits "design", lits "plan"],
    RE.wb, RE.star RE.anyc, RE.wb,
    altList [lits "system", lits "service", lits "infrastructure", lits "api"]]

/-- Pattern `\b(trade-?off|compare|evaluate|contrast)\b.*\b(approach|solution|option|method)`. -/
def opusRE2 : RE :=
  seqList [RE.wb,
    altList [seqList [lits "trade", RE.opt (RE.ch '-'), lits "off"],
      lits "compare", lits "evaluate", lits "contrast"],
    RE.wb, RE.star RE.anyc, RE.wb,
    altList [lits "approach", lits "solution", lits "option", lits "method"]]

/-- Pattern `\b(security|vulnerability|attack|threat)\b.*\b(audit|review|assess|analyze)`. -/
def opusRE3 : RE :=
  seqList [RE.wb,
    altList [lits "security", lits "vulnerability", lits "attack", lits "threat"],
    RE.wb, RE.star RE.anyc, RE.wb,
    altList [lits "audit", lits "review", lits "assess", lits "analyze"]]

/-- Pattern `\b(optimize|performance|scalability)\b.*\b(system|architecture|design)`. -/
def opusRE4 : RE :=
  seqList [RE.wb,
    altList [lits "optimize", lits "performance", lits "scalability"],
    RE.wb, RE.star RE.anyc, RE.wb,
    altList [lits "system", lits "architecture", lits "design"]]

/-- Pattern `\b(debug|investigate|diagnose)\b.*\b(complex|mysterious|intermittent)`. -/
def opusRE5 : RE :=
  seqList [RE.wb, altList [lits "debug", lits "investigate", lits "diagnose"],
    RE.wb, RE.star RE.anyc, RE.wb,
    altList [lits "complex", lits "mysterious", lits "intermittent"]]

/-- Pattern `\b(write|create|implement|build|add|generate)\b.*\b(function|class|method|api|component)`. -/
def sonnetRE1 : RE :=
  seqList [RE.wb,
    altList [lits "write", lits "create", lits "implement", lits "build",
      lits "add", lits "generate"],
    RE.wb, RE.star RE.anyc, RE.wb,
    altList [lits "function", lits "class", lits "method", lits "api",
      lits "component"]]

/-- Pattern `\b(fix|debug|solve|resolve|repair)\b.*\b(bug|error|issue|problem)`. -/
def sonnetRE2 : RE :=
  seqList [RE.wb,
    altList [lits "fix", lits "debug", lits "solve", lits "resolve", lits "repair"],
    RE.wb, RE.star RE.anyc, RE.wb,
    altList [lits "bug", lits "error", lits "issue", lits "problem"]]

/-- Pattern `\b(refactor|restructure|reorganize|clean up|improve)\b`. -/
def sonnetRE3 : RE :=
  seqList [RE.wb,
    altList [lits "refactor", lits "restructure", lits "reorganize",
      lits "clean up", lits "improve"], RE.wb]

/-- Pattern `\b(test|spec|coverage|unit test|integration test)\b`. -/
def sonnetRE4 : RE :=
  seqList [RE.wb,
    altList [lits "test", lits "spec", lits "coverage", lits "unit test",
      lits "integration test"], RE.wb]

/-- Pattern `\b(document|explain|describe)\b.*\b(code|function|class|api)`. -/
def sonnetRE5 : RE :=
  seqList [RE.wb, altList [lits "document", lits "explain", lits "describe"],
    RE.wb, RE.star RE.anyc, RE.wb,
    altList [lits "code", lits "function", lits "class", lits "api"]]

/-- `DEFAULT_HAIKU_PATTERNS`: each entry keeps the source pattern text
next to its embedding. -/
def DEFAULT_HAIKU_PATTERNS : List (String × RE) :=
  [("^(what|which|where|when|who|how many)\\b", haikuRE1),
   ("\\b(list|show|display|get)\\s+(files?|dirs?|folders?)", haikuRE2),
   ("^(yes|no|confirm|cancel|ok|done|thanks?|thank you)\\b", haikuRE3),
   ("\\buse\\s+(the\\s+)?(grep|glob|read|bash)\\s+tool", haikuRE4),
   ("^(check|verify|validate|test)\\s+(if|that|whether)", haikuRE5),
   ("^(go to|open|navigate|cd)\\s+", haikuRE6)]

/-- `DEFAULT_OPUS_PATTERNS`. -/
def DEFAULT_OPUS_PATTERNS : List (String × RE) :=
  [("\\b(architect|design|plan)\\b.*\\b(system|service|infrastructure|api)", opusRE1),
   ("\\b(trade-?off|compare|evaluate|contrast)\\b.*\\b(approach|solution|option|method)", opusRE2),
   ("\\b(security|vulnerability|attack|threat)\\b.*\\b(audit|review|assess|analyze)", opusRE3),
   ("\\b(optimize|performance|scalability)\\b.*\\b(system|architecture|design)", opusRE4),
   ("\\b(debug|investigate|diagnose)\\b.*\\b(complex|mysterious|intermittent)", opusRE5)]

/-- `DEFAULT_SONNET_PATTERNS`. -/
def DEFAULT_SONNET_PATTERNS : List (String × RE) :=
  [("\\b(write|create|implement|build|add|generate)\\b.*\\b(function|class|method|api|component)", sonnetRE1),
   ("\\b(fix|debug|solve|resolve|repair)\\b.*\\b(bug|error|issue|problem)", sonnetRE2),
   ("\\b(refactor|restructure|reorganize|clean up|improve)\\b", sonnetRE3),
   ("\\b(test|spec|coverage|unit test|integration test)\\b", sonnetRE4),
   ("\\b(document|explain|describe)\\b.*\\b(code|function|class|api)", sonnetRE5)]

/-- The model-tiering configuration section, each key optional
(`config.get` with a default in the source). Pattern overrides carry
already-compiled patterns, as after `_compile_patterns`. -/
structure TierConfig where
  enabled : Option Bool
  defaultModel : Option String
  haikuPatterns : Option (List (String × RE))
  opusPatterns : Option (List (String × RE))
  sonnetPatterns : Option (List (String × RE))

/-- The empty configuration dict (missing config file). -/
def emptyTierConfig : TierConfig := ⟨none, none, none, none, none⟩

/-- Result dataclass `TierDecision`. -/
structure TierDecision where
  recommended_model : String
  confidence : ℚ
  reason : String
  patterns_matched : List String
deriving Repr, DecidableEq

/-- Python `str.strip()` over ASCII whitespace. -/
def pyStrip (s : List Char) : List Char :=
  ((s.dropWhile isSpaceChar).reverse.dropWhile isSpaceChar).reverse

/-- One group pass of `classify`: collect `tag + pattern_text` for every
pattern in the group whose case-insensitive search hits the message. -/
def groupMatches (group : List (String × RE)) (tag : String)
    (msg : List Char) : List String :=
  (group.filter fun p => reSearch true p.2 msg).map fun p => tag ++ p.1

/-- `ModelTier.classify`: strip the message, then try the haiku group,
the opus group and the sonnet group in that order, short-circuiting on
the first group with any match; otherwise fall back to the configured
default model at confidence 0.60. -/
def classify (cfg : TierConfig) (message : String) : TierDecision :=
  let msg := pyStrip message.data
  let hm := groupMatches (cfg.haikuPatterns.getD DEFAULT_HAIKU_PATTERNS) "haiku:" msg
  if !hm.isEmpty then
    ⟨"haiku", 85 / 100, "Simple query/operation detected", hm⟩
  else
    let om := groupMatches (cfg.opusPatterns.getD DEFAULT_OPUS_PATTERNS) "opus:" msg
    if !om.isEmpty then
      ⟨"opus", 80 / 100, "Complex reasoning/architecture task detected", om⟩
    else
      let sm := groupMatches (cfg.sonnetPatterns.getD DEFAULT_SONNET_PATTERNS) "sonnet:" msg
      if !sm.isEmpty then
        ⟨"sonnet", 90 / 100, "Code generation/modification task detected", sm⟩
      else
        ⟨cfg.defaultModel.getD "sonnet", 60 / 100,
          "No specific patterns matched, using default", []⟩

/-- `needle in hay` on character lists (Python substring test). -/
def strContains (hay needle : List Char) : Bool :=
  hay.tails.any fun t => needle.isPrefixOf t

set_option linter.unusedVariables false in
/-- `ModelTier.should_tier`: suppressed when the config disables
tiering; never move away from an opus current model; otherwise allow.
The `min_confidence` parameter is accepted but never read, as in the
source. -/
def should_tier (cfg : TierConfig) (current_model recommended_model : String)
    (min_confidence : ℚ) : Bool :=
  if !(cfg.enabled.getD true) then false
  else if strContains (current_model.data.map Char.toLower) ("opus".data)
      && recommended_model != "opus" then false
  else true

/-! ## Session health monitor (lib/core/session_monitor.py) -/

/-- `MODEL_CONTEXT_LIMITS`. -/
def MODEL_CONTEXT_LIMITS : List (String × ℕ) :=
  [("claude-opus-4-5", 200000), ("claude-sonnet-4", 200000),
   ("claude-haiku-3-5", 200000), ("default", 200000)]

/-- Threshold `WARNING_THRESHOLD` (70% of context window). -/
def WARNING_THRESHOLD : ℚ := 70 / 100
/-- Threshold `CRITICAL_THRESHOLD` (90% of context window). -/
def CRITICAL_THRESHOLD : ℚ := 90 / 100
/-- Threshold `SIZE_WARNING_KB` (2 MB). -/
def SIZE_WARNING_KB : ℕ := 2000
/-- Threshold `SIZE_CRITICAL_KB` (10 MB). -/
def SIZE_CRITICAL_KB : ℕ := 10000
/-- Threshold `GROWTH_RATE_WARN` (KB per minute). -/
def GROWTH_RATE_WARN : ℚ := 500
/-- Threshold `INJECTION_WARNING`. -/
def INJECTION_WARNING : ℕ := 10
/-- Threshold `INJECTION_CRITICAL`. -/
def INJECTION_CRITICAL : ℕ := 50
/-- Threshold `NESTED_INJECTION_WARNING`. -/
def NESTED_INJECTION_WARNING : ℕ := 1

/-- The injection-recovery marker pattern
`\[INJECTION-DEPTH:[^\]]*\].{0,200}Recovered Conversation Context`
(case-sensitive, counted with `re.findall`). -/
def injectionRE : RE :=
  seqList [lits "[INJECTION-DEPTH:", RE.star RE.nonRBracket, RE.ch ']',
    RE.repMax RE.anyc 200, lits "Recovered Conversation Context"]

/-- Non-overlapping injection-block count within one message's content. -/
def count_injection_blocks (content : String) : ℕ :=
  findCount false injectionRE content.data

/-- The `message` object inside a session-log entry; both keys may be
absent (`msg.get`). Content is the already-stringified text the source
obtains with `str(msg.get('content', ''))`. -/
structure MsgObj where
  role : Option String
  content : Option String
deriving Repr, DecidableEq

/-- One line of a session log: either a line whose `json.loads` raises
(skipped), or a decoded entry with its `type`, optional `model`, and
optional `message` object. -/
inductive SessionLine where
  | malformed
  | entry (type_ : String) (model : Option String) (message : Option MsgObj)
deriving Repr, DecidableEq

/-- Accumulator of the per-line scan in `analyze_session`. -/
structure ScanState where
  injection_count : ℕ
  max_nested : ℕ
  message_count : ℕ
  model : String
deriving Repr, DecidableEq

/-- One iteration of `analyze_session`'s line loop: malformed lines are
skipped; a `message` entry bumps the message count, remembers the last
`model` seen, and for user messages accumulates the injection-block
count and the per-message maximum. -/
def scanLine (st : ScanState) : SessionLine → ScanState
  | .malformed => st
  | .entry t model? msg? =>
    if t == "message" then
      let st1 := { st with message_count := st.message_count + 1 }
      let st2 := match model? with
        | some m => { st1 with model := m }
        | none => st1
      let msg := msg?.getD ⟨none, none⟩
      if msg.role == some "user" then
        let blocks := count_injection_blocks (msg.content.getD "")
        { st2 with
          injection_count := st2.injection_count + blocks
          max_nested := max st2.max_nested blocks }
      else st2
    else st

/-- The whole line loop, starting from zero counts and model `default`. -/
def scanSession (lines : List SessionLine) : ScanState :=
  lines.foldl scanLine ⟨0, 0, 0, "default"⟩

/-- `_calculate_growth_rate`, with the per-session history and the clock
passed explicitly.  Appends the sample, prunes entries older than 300
seconds, and returns the rate together with the new history: 0 with
fewer than two surviving samples or an elapsed window under 0.1 minutes,
otherwise the size delta per elapsed minute clamped to be non-negative. -/
def calculate_growth_rate (history : List (ℚ × ℚ)) (now current_size_kb : ℚ) :
    ℚ × List (ℚ × ℚ) :=
  let h := (history ++ [(now, current_size_kb)]).filter fun ts => ts.1 > now - 300
  if h.length < 2 then (0, h)
  else
    let oldest := h.headD (0, 0)
    let newest := h.getLastD (0, 0)
    let time_diff := (newest.1 - oldest.1) / 60
    if time_diff < 1 / 10 then (0, h)
    else (max 0 ((newest.2 - oldest.2) / time_diff), h)

/-- Session status. -/
inductive Status where
  | HEALTHY
  | WARNING
  | CRITICAL
deriving Repr, DecidableEq

/-- The ordered threshold chain at the end of `analyze_session`. -/
def determine_status (max_nested file_size_kb injection_count : ℕ)
    (context_utilization growth_rate : ℚ) : Status :=
  if max_nested > NESTED_INJECTION_WARNING then .CRITICAL
  else if file_size_kb > SIZE_CRITICAL_KB then .CRITICAL
  else if injection_count > INJECTION_CRITICAL then .CRITICAL
  else if context_utilization > CRITICAL_THRESHOLD then .CRITICAL
  else if file_size_kb > SIZE_WARNING_KB then .WARNING
  else if injection_count > INJECTION_WARNING then .WARNING
  else if context_utilization > WARNING_THRESHOLD then .WARNING
  else if growth_rate > GROWTH_RATE_WARN then .WARNING
  else .HEALTHY

/-- Result dataclass `SessionHealth` (identification strings and the
recommendation text omitted; the numeric fields and status are total
functions of the inputs below). -/
structure SessionHealth where
  file_size_bytes : ℕ
  file_size_kb : ℕ
  estimated_tokens : ℕ
  context_utilization : ℚ
  injection_count : ℕ
  max_nested_injections : ℕ
  message_count : ℕ
  growth_rate_kb_per_min : ℚ
  status : Status
deriving Repr, DecidableEq

/-- `SessionMonitor.analyze_session`, with the file's byte size, its
parsed lines, the process-local growth history for this session id and
the current time passed explicitly. -/
def analyze_session (file_size : ℕ) (lines : List SessionLine)
    (history : List (ℚ × ℚ)) (now : ℚ) : SessionHealth :=
  let file_size_kb := file_size / 1024
  let estimated_tokens := file_size / 4
  let scan := scanSession lines
  let context_limit := (lookupStr scan.model MODEL_CONTEXT_LIMITS).getD
    ((lookupStr "default" MODEL_CONTEXT_LIMITS).getD 0)
  let context_utilization := (estimated_tokens : ℚ) / (context_limit : ℚ)
  let growth_rate := (calculate_growth_rate history now (file_size_kb : ℚ)).1
  { file_size_bytes := file_size
    file_size_kb := file_size_kb
    estimated_tokens := estimated_tokens
    context_utilization := context_utilization
    injection_count := scan.injection_count
    max_nested_injections := scan.max_nested
    message_count := scan.message_count
    growth_rate_kb_per_min := growth_rate
    status := determine_status scan.max_nested file_size_kb
      scan.injection_count context_utilization growth_rate }

/-! ## Concrete inputs used in the verification -/

/-- A single user message whose content carries two injection-recovery
markers on separate lines; `re.findall` counts two blocks in it. -/
def twoMarkers : String :=
  "[INJECTION-DEPTH:1] Recovered Conversation Context\n[INJECTION-DEPTH:2] Recovered Conversation Context"

/-- A session-log line holding that user message. -/
def nestedLine : SessionLine :=
  .entry "message" none (some ⟨some "user", some twoMarkers⟩)

/-- Modelled from the spec: the pricing configuration file
`lib/config/model_pricing.json` is referenced by `_load_pricing` but is
not under src.  Per the spec's Pricing Table description (a per-model
four-rate sheet) and its tier-ordering property (haiku cheapest, opus
most expensive), the sheet maps one model id per tier; the haiku rates
follow the repository's unit-test fixture, the sonnet rates the built-in
default, and the opus rates the same five-fold step up from sonnet that
sonnet takes from haiku's order of magnitude. -/
def spec_pricing : PricingConfig :=
  { models :=
      [("claude-haiku-3-5-20241022",
        { input_per_million := 1, output_per_million := 5
          cache_read_per_million := 1 / 10, cache_write_per_million := 5 / 4 }),
       ("claude-sonnet-4-20250514", fallbackSheet),
       ("claude-opus-4-20250514",
        { input_per_million := 15, output_per_million := 75
          cache_read_per_million := 3 / 2, cache_write_per_million := 75 / 4 })]
    aliases := [] }

/-! ## Claims -/

/-- Claim C1: for every model id and every usage with non-negative token
counts, `calculate` bills input on `max(0, input_tokens - cache_read)`,
bills cache-write tokens at the cache-write rate without subtracting
them from input, computes each of the four components as
`(tokens / 1_000_000) * rate`, sets `total` to the sum of the four, and
maps empty or all-zero usage to the all-zero breakdown. -/
theorem C1_calculate_breakdown (cfg : PricingConfig) (model : String) (u : Usage) :
    (calculate cfg model u).input_cost =
        ((max 0 ((u.input_tokens : ℤ) - (u.cache_read_tokens : ℤ)) : ℤ) : ℚ) / 1000000 *
          (get_model_pricing cfg model).input_per_million
  ∧ (calculate cfg model u).output_cost =
        (u.output_tokens : ℚ) / 1000000 * (get_model_pricing cfg model).output_per_million
  ∧ (calculate cfg model u).cache_read_cost =
        (u.cache_read_tokens : ℚ) / 1000000 * (get_model_pricing cfg model).cache_read_per_million
  ∧ (calculate cfg model u).cache_write_cost =
        (u.cache_write_tokens : ℚ) / 1000000 * (get_model_pricing cfg model).cache_write_per_million
  ∧ (calculate cfg model u).total =
        (calculate cfg model u).input_cost + (calculate cfg model u).output_cost +
          (calculate cfg model u).cache_read_cost + (calculate cfg model u).cache_write_cost
  ∧ calculate cfg model zeroUsage = ⟨0, 0, 0, 0, 0⟩ := by
  refine ⟨rfl, rfl, rfl, rfl, ?_, ?_⟩
  · simp [calculate, mkCost]
  · simp [calculate, mkCost, billable_input, zeroUsage]

/-- Claim C2: `analyze_session` assigns status by the first matching
rule of the fixed precedence (nested injections, critical size, critical
injection total, critical utilization, then the four warning rules), and
no later rule can downgrade it; in particular a single message holding
two injection markers forces CRITICAL regardless of file size, an 11 MB
file with no markers is CRITICAL, and a file under every threshold is
HEALTHY. -/
theorem C2_status_precedence :
    (∀ (mn kb ic : ℕ) (u g : ℚ),
      (determine_status mn kb ic u g = .CRITICAL ↔
        1 < mn ∨ 10000 < kb ∨ 50 < ic ∨ (90 : ℚ) / 100 < u)
      ∧ (determine_status mn kb ic u g = .WARNING ↔
          ¬(1 < mn ∨ 10000 < kb ∨ 50 < ic ∨ (90 : ℚ) / 100 < u) ∧
            (2000 < kb ∨ 10 < ic ∨ (70 : ℚ) / 100 < u ∨ 500 < g))
      ∧ (determine_status mn kb ic u g = .HEALTHY ↔
          ¬(1 < mn ∨ 10000 < kb ∨ 50 < ic ∨ (90 : ℚ) / 100 < u) ∧
            ¬(2000 < kb ∨ 10 < ic ∨ (70 : ℚ) / 100 < u ∨ 500 < g)))
  ∧ (∀ (size : ℕ) (lines : List SessionLine) (hist : List (ℚ × ℚ)) (t : ℚ),
      (analyze_session size lines hist t).status =
        determine_status (scanSession lines).max_nested (size / 1024)
          (scanSession lines).injection_count
          (analyze_session size lines hist t).context_utilization
          (analyze_session size lines hist t).growth_rate_kb_per_min)
  ∧ (∀ (size : ℕ) (hist : List (ℚ × ℚ)) (t : ℚ),
      (analyze_session size [nestedLine] hist t).status = .CRITICAL)
  ∧ (analyze_session 11534336 [] [] 0).status = .CRITICAL
  ∧ (analyze_session 1000 [] [] 0).status = .HEALTHY := by
  refine ⟨?_, fun size lines hist t => rfl, ?_, ?_, ?_⟩
  · intro mn kb ic u g
    unfold determine_status NESTED_INJECTION_WARNING SIZE_CRITICAL_KB INJECTION_CRITICAL
      CRITICAL_THRESHOLD SIZE_WARNING_KB INJECTION_WARNING WARNING_THRESHOLD GROWTH_RATE_WARN
    refine ⟨?_, ?_, ?_⟩ <;>
      split_ifs with h1 h2 h3 h4 h5 h6 h7 h8 <;> simp_all
  · intro size hist t
    have h : scanSession [nestedLine] = ⟨2, 2, 1, "default"⟩ := by decide
    simp [analyze_session, h, determine_status, NESTED_INJECTION_WARNING]
  · decide
  · norm_num [analyze_session, scanSession, calculate_growth_rate, determine_status,
      MODEL_CONTEXT_LIMITS, lookupStr, WARNING_THRESHOLD, CRITICAL_THRESHOLD,
      SIZE_WARNING_KB, SIZE_CRITICAL_KB, GROWTH_RATE_WARN, INJECTION_WARNING,
      INJECTION_CRITICAL, NESTED_INJECTION_WARNING]

set_option maxRecDepth 40000 in
/-- Claim C3: `classify` evaluates the pattern groups cheapest tier
first (haiku, then opus, then sonnet), short-circuits on the first group
with any match, and uses fixed per-outcome confidences 0.85 / 0.80 /
0.90 / 0.60; the four sample messages classify to haiku, opus, sonnet
via a pattern, and sonnet via the default path at confidence 0.60. -/
theorem C3_classifier_precedence :
    (∀ (cfg : TierConfig) (message : String),
      (groupMatches (cfg.haikuPatterns.getD DEFAULT_HAIKU_PATTERNS) "haiku:"
          (pyStrip message.data) ≠ [] →
        classify cfg message =
          ⟨"haiku", 85 / 100, "Simple query/operation detected",
           groupMatches (cfg.haikuPatterns.getD DEFAULT_HAIKU_PATTERNS) "haiku:"
             (pyStrip message.data)⟩)
      ∧ (groupMatches (cfg.haikuPatterns.getD DEFAULT_HAIKU_PATTERNS) "haiku:"
            (pyStrip message.data) = [] →
         groupMatches (cfg.opusPatterns.getD DEFAULT_OPUS_PATTERNS) "opus:"
            (pyStrip message.data) ≠ [] →
        classify cfg message =
          ⟨"opus", 80 / 100, "Complex reasoning/architecture task detected",
           groupMatches (cfg.opusPatterns.getD DEFAULT_OPUS_PATTERNS) "opus:"
             (pyStrip message.data)⟩)
      ∧ (groupMatches (cfg.haikuPatterns.getD DEFAULT_HAIKU_PATTERNS) "haiku:"
            (pyStrip message.data) = [] →
         groupMatches (cfg.opusPatterns.getD DEFAULT_OPUS_PATTERNS) "opus:"
            (pyStrip message.data) = [] →
         groupMatches (cfg.sonnetPatterns.getD DEFAULT_SONNET_PATTERNS) "sonnet:"
            (pyStrip message.data) ≠ [] →
        classify cfg message =
          ⟨"sonnet", 90 / 100, "Code generation/modification task detected",
           groupMatches (cfg.sonnetPatterns.getD DEFAULT_SONNET_PATTERNS) "sonnet:"
             (pyStrip message.data)⟩)
      ∧ (groupMatches (cfg.haikuPatterns.getD DEFAULT_HAIKU_PATTERNS) "haiku:"
            (pyStrip message.data) = [] →
         groupMatches (cfg.opusPatterns.getD DEFAULT_OPUS_PATTERNS) "opus:"
            (pyStrip message.data) = [] →
         groupMatches (cfg.sonnetPatterns.getD DEFAULT_SONNET_PATTERNS) "sonnet:"
            (pyStrip message.data) = [] →
        classify cfg message =
          ⟨cfg.defaultModel.getD "sonnet", 60 / 100,
           "No specific patterns matched, using default", []⟩))
  ∧ classify emptyTierConfig "Yes, please proceed" =
      ⟨"haiku", 85 / 100, "Simple query/operation detected",
       ["haiku:^(yes|no|confirm|cancel|ok|done|thanks?|thank you)\\b"]⟩
  ∧ classify emptyTierConfig "Design a microservices architecture with a security audit" =
      ⟨"opus", 80 / 100, "Complex reasoning/architecture task detected",
       ["opus:\\b(security|vulnerability|attack|threat)\\b.*\\b(audit|review|assess|analyze)"]⟩
  ∧ classify emptyTierConfig "Fix this bug in my code" =
      ⟨"sonnet", 90 / 100, "Code generation/modification task detected",
       ["sonnet:\\b(fix|debug|solve|resolve|repair)\\b.*\\b(bug|error|issue|problem)"]⟩
  ∧ classify emptyTierConfig "Tell me something interesting" =
      ⟨"sonnet", 60 / 100, "No specific patterns matched, using default", []⟩ := by
  refine ⟨?_, rfl, rfl, rfl, rfl⟩
  intro cfg message
  refine ⟨fun h1 => ?_, fun h1 h2 => ?_, fun h1 h2 h3 => ?_, fun h1 h2 h3 => ?_⟩
  · simp [classify, h1]
  · simp [classify, h1, h2]
  · simp [classify, h1, h2, h3]
  · simp [classify, h1, h2, h3]

/-- Claim C3 witness: the short-circuit implications applied at concrete
messages, hypotheses discharged by evaluation. -/
theorem C3_classifier_precedence_witness :
    (groupMatches DEFAULT_HAIKU_PATTERNS "haiku:"
        (pyStrip ("Yes, please proceed").data) ≠ [] ∧
      classify emptyTierConfig "Yes, please proceed" =
        ⟨"haiku", 85 / 100, "Simple query/operation detected",
         groupMatches DEFAULT_HAIKU_PATTERNS "haiku:"
           (pyStrip ("Yes, please proceed").data)⟩) ∧
    (groupMatches DEFAULT_HAIKU_PATTERNS "haiku:"
        (pyStrip ("Tell me something interesting").data) = [] ∧
      groupMatches DEFAULT_OPUS_PATTERNS "opus:"
        (pyStrip ("Tell me something interesting").data) = [] ∧
      groupMatches DEFAULT_SONNET_PATTERNS "sonnet:"
        (pyStrip ("Tell me something interesting").data) = [] ∧
      classify emptyTierConfig "Tell me something interesting" =
        ⟨"sonnet", 60 / 100, "No specific patterns matched, using default", []⟩) :=
  ⟨⟨by decide,
    (C3_classifier_precedence.1 emptyTierConfig "Yes, please proceed").1 (by decide)⟩,
   ⟨by decide, by decide, by decide,
    (C3_classifier_precedence.1 emptyTierConfig "Tell me something interesting").2.2.2
      (by decide) (by decide) (by decide)⟩⟩

/-- Claim C4, counterexample: the claim asserts the total is
non-decreasing in each of the four token counts independently, but with
the built-in pricing, raising `cache_read_tokens` alone from 0 to 1000
at `input_tokens = 2000` strictly lowers the total (input is re-billed
at the far cheaper cache-read rate). -/
theorem C4_cache_read_lowers_total :
    (calculate default_pricing "claude-sonnet-4-20250514" ⟨2000, 0, 1000, 0⟩).total <
      (calculate default_pricing "claude-sonnet-4-20250514" ⟨2000, 0, 0, 0⟩).total := by
  norm_num [calculate, mkCost, billable_input, get_model_pricing, resolve_model,
    default_pricing, fallbackSheet, lookupStr]

/-- Claim C4 as amended: for non-negative per-million rates, the total
produced by `calculate` is monotonically non-decreasing in each of
`input_tokens`, `output_tokens` and `cache_write_tokens` independently
(increasing `cache_read_tokens` alone can strictly decrease it). -/
theorem C4_total_monotone (cfg : PricingConfig) (model : String) (u : Usage) (d : ℕ)
    (hin : 0 ≤ (get_model_pricing cfg model).input_per_million)
    (hout : 0 ≤ (get_model_pricing cfg model).output_per_million)
    (hcw : 0 ≤ (get_model_pricing cfg model).cache_write_per_million) :
    (calculate cfg model u).total ≤
        (calculate cfg model { u with input_tokens := u.input_tokens + d }).total
  ∧ (calculate cfg model u).total ≤
        (calculate cfg model { u with output_tokens := u.output_tokens + d }).total
  ∧ (calculate cfg model u).total ≤
        (calculate cfg model { u with cache_write_tokens := u.cache_write_tokens + d }).total := by
  have key : ∀ x y r : ℚ, x ≤ y → 0 ≤ r → x / 1000000 * r ≤ y / 1000000 * r := by
    intro x y r hxy hr
    have h2 : x / 1000000 ≤ y / 1000000 := by linarith
    exact mul_le_mul_of_nonneg_right h2 hr
  have hd : (0 : ℚ) ≤ (d : ℚ) := Nat.cast_nonneg d
  refine ⟨?_, ?_, ?_⟩ <;> simp [calculate, mkCost, billable_input]
  · have h1 : (0 : ℚ) ⊔ ((u.input_tokens : ℚ) - (u.cache_read_tokens : ℚ)) ≤
        0 ⊔ ((u.input_tokens : ℚ) + (d : ℚ) - (u.cache_read_tokens : ℚ)) :=
      sup_le_sup_left (by linarith) 0
    have h3 := key _ _ _ h1 hin
    linarith
  · have h3 := key (u.output_tokens : ℚ) ((u.output_tokens : ℚ) + (d : ℚ)) _ (by linarith) hout
    linarith
  · have h3 := key (u.cache_write_tokens : ℚ) ((u.cache_write_tokens : ℚ) + (d : ℚ)) _
      (by linarith) hcw
    linarith

/-- Claim C4 witness: the amended monotonicity instantiated on the
built-in pricing at a concrete usage and increment. -/
theorem C4_total_monotone_witness :
    (0 ≤ (get_model_pricing default_pricing "claude-sonnet-4-20250514").input_per_million
      ∧ 0 ≤ (get_model_pricing default_pricing "claude-sonnet-4-20250514").output_per_million
      ∧ 0 ≤ (get_model_pricing default_pricing "claude-sonnet-4-20250514").cache_write_per_million)
  ∧ ((calculate default_pricing "claude-sonnet-4-20250514" ⟨100, 200, 300, 400⟩).total ≤
        (calculate default_pricing "claude-sonnet-4-20250514" ⟨100 + 7, 200, 300, 400⟩).total
    ∧ (calculate default_pricing "claude-sonnet-4-20250514" ⟨100, 200, 300, 400⟩).total ≤
        (calculate default_pricing "claude-sonnet-4-20250514" ⟨100, 200 + 7, 300, 400⟩).total
    ∧ (calculate default_pricing "claude-sonnet-4-20250514" ⟨100, 200, 300, 400⟩).total ≤
        (calculate default_pricing "claude-sonnet-4-20250514" ⟨100, 200, 300, 400 + 7⟩).total) :=
  ⟨⟨by norm_num [get_model_pricing, resolve_model, default_pricing, lookupStr, fallbackSheet],
    by norm_num [get_model_pricing, resolve_model, default_pricing, lookupStr, fallbackSheet],
    by norm_num [get_model_pricing, resolve_model, default_pricing, lookupStr, fallbackSheet]⟩,
   C4_total_monotone default_pricing "claude-sonnet-4-20250514" ⟨100, 200, 300, 400⟩ 7
     (by norm_num [get_model_pricing, resolve_model, default_pricing, lookupStr, fallbackSheet])
     (by norm_num [get_model_pricing, resolve_model, default_pricing, lookupStr, fallbackSheet])
     (by norm_num [get_model_pricing, resolve_model, default_pricing, lookupStr, fallbackSheet])⟩

/-- Claim C5: on the tier-ordered pricing sheet (modelled from the spec,
see `spec_pricing`), the usage `{input: 1000, output: 1000}` costs
strictly less on the haiku model than on the sonnet model, and strictly
less on the sonnet model than on the opus model. -/
theorem C5_tier_cost_ordering :
    (calculate spec_pricing "claude-haiku-3-5-20241022" ⟨1000, 1000, 0, 0⟩).total <
        (calculate spec_pricing "claude-sonnet-4-20250514" ⟨1000, 1000, 0, 0⟩).total
  ∧ (calculate spec_pricing "claude-sonnet-4-20250514" ⟨1000, 1000, 0, 0⟩).total <
        (calculate spec_pricing "claude-opus-4-20250514" ⟨1000, 1000, 0, 0⟩).total := by
  have h1 : get_model_pricing spec_pricing "claude-haiku-3-5-20241022" =
      { input_per_million := 1, output_per_million := 5
        cache_read_per_million := 1 / 10, cache_write_per_million := 5 / 4 } := rfl
  have h2 : get_model_pricing spec_pricing "claude-sonnet-4-20250514" = fallbackSheet := rfl
  have h3 : get_model_pricing spec_pricing "claude-opus-4-20250514" =
      { input_per_million := 15, output_per_million := 75
        cache_read_per_million := 3 / 2, cache_write_per_million := 75 / 4 } := rfl
  constructor <;>
    norm_num [calculate, mkCost, billable_input, h1, h2, h3, fallbackSheet]

/-- Claim C6: `should_tier` returns false whenever the configuration
disables tiering; with an opus current model it returns false for every
recommendation other than opus (never moving away from the top tier);
every other combination with tiering enabled returns true. -/
theorem C6_should_tier_guardrail :
    (∀ (cfg : TierConfig) (cur rec : String) (c : ℚ),
      cfg.enabled = some false → should_tier cfg cur rec c = false)
  ∧ (∀ (cfg : TierConfig) (cur rec : String) (c : ℚ),
      strContains (cur.data.map Char.toLower) ("opus").data = true → rec ≠ "opus" →
        should_tier cfg cur rec c = false)
  ∧ (∀ (cfg : TierConfig) (cur rec : String) (c : ℚ),
      cfg.enabled.getD true = true →
      (strContains (cur.data.map Char.toLower) ("opus").data = false ∨ rec = "opus") →
        should_tier cfg cur rec c = true) := by
  refine ⟨?_, ?_, ?_⟩ <;> intro cfg cur rec c
  · intro h; simp [should_tier, h]
  · intro h1 h2; simp [should_tier, h1, h2]
  · rintro h1 (h2 | h2) <;> simp [should_tier, h1, h2]

/-- Claim C6 witness: the guardrail at a concrete opus model asked to
downgrade to haiku with tiering enabled, plus a permitted transition. -/
theorem C6_should_tier_guardrail_witness :
    (strContains (("claude-opus-4-20250514").data.map Char.toLower) ("opus").data = true
      ∧ ("haiku" : String) ≠ "opus"
      ∧ should_tier emptyTierConfig "claude-opus-4-20250514" "haiku" (7 / 10) = false)
  ∧ (emptyTierConfig.enabled.getD true = true
      ∧ should_tier emptyTierConfig "claude-sonnet-4-20250514" "haiku" (7 / 10) = true) :=
  ⟨⟨by decide, by decide,
    C6_should_tier_guardrail.2.1 emptyTierConfig "claude-opus-4-20250514" "haiku" (7 / 10)
      (by decide) (by decide)⟩,
   ⟨by decide,
    C6_should_tier_guardrail.2.2 emptyTierConfig "claude-sonnet-4-20250514" "haiku" (7 / 10)
      (by decide) (Or.inl (by decide))⟩⟩

/-- Claim C7 (divergence): `get_daily_summary` returns the all-zero
summary for a missing file, and lines that fail JSON decoding are
skipped without affecting any aggregate; but a line holding valid JSON
that is not an object aborts the whole scan with an AttributeError, no
matter what follows it, so it is not true that no corrupt line ever
aborts the scan. -/
theorem C7_corrupt_line_aborts_scan :
    get_daily_summary none = .ok zeroSummary
  ∧ get_daily_summary (some [LogLine.record (some (5 / 100)) none none none,
      LogLine.malformed, LogLine.record (some (3 / 100)) none none none]) =
      .ok ⟨2, 8 / 100, 0, 0, 0⟩
  ∧ get_daily_summary (some [LogLine.nonObject]) = .error "AttributeError"
  ∧ (∀ (rest : List LogLine),
      get_daily_summary (some (LogLine.nonObject :: rest)) = .error "AttributeError") := by
  refine ⟨rfl, ?_, rfl, fun rest => rfl⟩
  norm_num [get_daily_summary, summaryLoop, accumRecord, zeroSummary]

/-- Claim C8: `estimate_savings` multiplies the base cost by 1.4 when
caching is enabled and by 1.3 when tiering is enabled (1.82 when both),
sets savings to the estimate minus the base and the percentage to
savings over estimate times 100, and short-circuits a zero base cost to
the all-zero result without dividing. -/
theorem C8_estimate_savings_model (b : ℚ) (hb : 0 < b) (c t : Bool) :
    (estimate_savings b c t).estimated_without_octo =
        b * ((if c then (14 : ℚ) / 10 else 1) * (if t then (13 : ℚ) / 10 else 1))
  ∧ (estimate_savings b true true).estimated_without_octo = b * (182 / 100)
  ∧ (estimate_savings b c t).savings = (estimate_savings b c t).estimated_without_octo - b
  ∧ (estimate_savings b c t).savings_percent =
      (estimate_savings b c t).savings / (estimate_savings b c t).estimated_without_octo * 100
  ∧ estimate_savings 0 c t = ⟨0, 0, 0, 0⟩ := by
  have hb' : b ≠ 0 := ne_of_gt hb
  rcases c <;> rcases t <;> refine ⟨?_, ?_, ?_, ?_, ?_⟩ <;>
    simp [estimate_savings, hb'] <;>
    first
      | (intro h; linarith)
      | norm_num

/-- Claim C8 witness: the savings model applied at base cost 2 with both
flags enabled. -/
theorem C8_estimate_savings_model_witness :
    (0 : ℚ) < 2
  ∧ (estimate_savings 2 true true).estimated_without_octo = 2 * (182 / 100) :=
  ⟨by norm_num, (C8_estimate_savings_model 2 (by norm_num) true true).2.1⟩

/-- Claim C9: the growth-rate computation appends the current sample,
drops samples older than 5 minutes, yields 0 with fewer than two
surviving samples (so a fresh process reports 0 on its first sample of a
session), yields 0 when the elapsed window is under 0.1 minutes, and
otherwise yields the size delta from earliest to latest sample per
elapsed minute, clamped to be non-negative. -/
theorem C9_growth_rate_window (history : List (ℚ × ℚ)) (t size : ℚ) :
    ((calculate_growth_rate history t size).2 =
        (history ++ [(t, size)]).filter (fun ts => ts.1 > t - 300))
  ∧ (((history ++ [(t, size)]).filter (fun ts => ts.1 > t - 300)).length < 2 →
      (calculate_growth_rate history t size).1 = 0)
  ∧ (∀ (told sold tnew snew : ℚ),
      2 ≤ ((history ++ [(t, size)]).filter (fun ts => ts.1 > t - 300)).length →
      ((history ++ [(t, size)]).filter (fun ts => ts.1 > t - 300)).headD (0, 0) =
        (told, sold) →
      ((history ++ [(t, size)]).filter (fun ts => ts.1 > t - 300)).getLastD (0, 0) =
        (tnew, snew) →
        ((tnew - told) / 60 < 1 / 10 → (calculate_growth_rate history t size).1 = 0)
        ∧ (¬(tnew - told) / 60 < 1 / 10 →
            (calculate_growth_rate history t size).1 =
              max 0 ((snew - sold) / ((tnew - told) / 60))))
  ∧ 0 ≤ (calculate_growth_rate history t size).1
  ∧ calculate_growth_rate [] t size = (0, [(t, size)]) := by
  have ht : t - 300 < t := by linarith
  refine ⟨?_, ?_, ?_, ?_, ?_⟩
  · simp only [calculate_growth_rate]
    split_ifs <;> rfl
  · intro hlt
    simp only [calculate_growth_rate]
    split_ifs
    rfl
  · intro told sold tnew snew hlen hold hnew
    simp only [calculate_growth_rate]
    split_ifs with h1 h2
    · exact absurd hlen (by omega)
    · rw [hold, hnew] at h2
      exact ⟨fun _ => rfl, fun hge => absurd h2 hge⟩
    · rw [hold, hnew] at h2
      refine ⟨fun hlt => absurd hlt h2, fun _ => ?_⟩
      rw [hold, hnew]
  · simp only [calculate_growth_rate]
    split_ifs <;> first | exact le_refl 0 | exact le_max_left 0 _
  · simp [calculate_growth_rate, ht]

/-- Claim C9 witness: the window characterization applied to a concrete
two-sample history one minute apart. -/
theorem C9_growth_rate_window_witness :
    (2 ≤ (([((0 : ℚ), (100 : ℚ))] ++ [((60 : ℚ), (400 : ℚ))]).filter
        (fun ts => ts.1 > (60 : ℚ) - 300)).length
      ∧ (([((0 : ℚ), (100 : ℚ))] ++ [((60 : ℚ), (400 : ℚ))]).filter
          (fun ts => ts.1 > (60 : ℚ) - 300)).headD (0, 0) = (0, 100)
      ∧ (([((0 : ℚ), (100 : ℚ))] ++ [((60 : ℚ), (400 : ℚ))]).filter
          (fun ts => ts.1 > (60 : ℚ) - 300)).getLastD (0, 0) = (60, 400)
      ∧ ¬((60 : ℚ) - 0) / 60 < 1 / 10)
  ∧ (calculate_growth_rate [((0 : ℚ), (100 : ℚ))] 60 400).1 =
      max 0 (((400 : ℚ) - 100) / (((60 : ℚ) - 0) / 60)) := by
  have hlen : 2 ≤ (([((0 : ℚ), (100 : ℚ))] ++ [((60 : ℚ), (400 : ℚ))]).filter
      (fun ts => ts.1 > (60 : ℚ) - 300)).length := by
    norm_num
  have hold : (([((0 : ℚ), (100 : ℚ))] ++ [((60 : ℚ), (400 : ℚ))]).filter
      (fun ts => ts.1 > (60 : ℚ) - 300)).headD (0, 0) = (0, 100) := by
    norm_num
  have hnew : (([((0 : ℚ), (100 : ℚ))] ++ [((60 : ℚ), (400 : ℚ))]).filter
      (fun ts => ts.1 > (60 : ℚ) - 300)).getLastD (0, 0) = (60, 400) := by
    norm_num
  have hge : ¬((60 : ℚ) - 0) / 60 < 1 / 10 := by norm_num
  exact ⟨⟨hlen, hold, hnew, hge⟩,
    ((C9_growth_rate_window [((0 : ℚ), (100 : ℚ))] 60 400).2.2.1 0 100 60 400
      hlen hold hnew).2 hge⟩

/-- Claim C10: `should_tier` never consults its `min_confidence`
argument: for every configuration, current model and recommendation, any
two confidence floors produce the same decision. -/
theorem C10_min_confidence_ignored (cfg : TierConfig) (cur rec : String) (c1 c2 : ℚ) :
    should_tier cfg cur rec c1 = should_tier cfg cur rec c2 := rfl

end Octo
